import Mathlib

/-!
Verification of the skip-judge-seeker submission analysis engine.

The engine lives in `src/pages/Index.tsx`, function `analyzeUser`: it
validates a handle, fetches the user's profile and submission history
from the remote judging platform, classifies submissions whose verdict
equals the sentinel string "SKIPPED" as suspicious, and aggregates the
statistics into an `AnalysisResult` record.  The definitions below are a
shallow embedding of that code: TypeScript interfaces become structures,
the optional fields become `Option`, JavaScript numbers used for the
percentage become exact rationals, and the two network calls become
explicit lookups in a `Remote` environment together with a trace of the
requests that were issued.
-/

/-- Models JavaScript `String.prototype.trim` as used on the handle:
strip leading and trailing whitespace characters.  Defined structurally
over the character list so that concrete instances reduce. -/
def jsTrim (s : String) : String :=
  String.mk (((s.data.dropWhile Char.isWhitespace).reverse.dropWhile Char.isWhitespace).reverse)

/-- Models the JavaScript expression `x || d` for an optional string `x`:
an absent or empty (falsy) string falls back to the default `d`. -/
def strOrDefault (x : Option String) (d : String) : String :=
  match x with
  | some v => if v = "" then d else v
  | none => d

/-- Member of `Submission.author.members` in `Index.tsx`. -/
structure Member where
  handle : String
deriving DecidableEq

/-- The `author` field of the `Submission` interface in `Index.tsx`. -/
structure Author where
  contestId : Option Int
  members : List Member
  participantType : String
  ghost : Bool
  room : Option Int
  startTimeSeconds : Option Int
deriving DecidableEq

/-- The `problem` field of the `Submission` interface in `Index.tsx`. -/
structure Problem where
  contestId : Option Int
  index : String
  name : String
  type : String
  rating : Option Int
deriving DecidableEq

/-- The `Submission` interface of `Index.tsx`.  `verdict?: string`
becomes `Option String`: an absent verdict means still judging. -/
structure Submission where
  id : Int
  contestId : Option Int
  creationTimeSeconds : Int
  relativeTimeSeconds : Int
  problem : Problem
  author : Author
  programmingLanguage : String
  verdict : Option String
  testset : String
  passedTestCount : Nat
  timeConsumedMillis : Nat
  memoryConsumedBytes : Nat
deriving DecidableEq

/-- The profile record delivered by the `user.info` endpoint (`handle`,
optional `rating`, optional `maxRating`), as read by `Index.tsx`. -/
structure Profile where
  handle : String
  rating : Option Int
  maxRating : Option Int
deriving DecidableEq

/-- The `AnalysisResult` interface of `Index.tsx`.  `skippedPercentage`
is a JavaScript number; it is embedded as an exact rational. -/
structure AnalysisResult where
  isCheat : Bool
  totalSubmissions : Nat
  skippedSubmissions : Nat
  skippedPercentage : ℚ
  suspiciousSubmissions : List Submission
deriving DecidableEq

/-- The suspicious partition of a submission list:
`submissions.filter(sub => sub.verdict === 'SKIPPED')` from line 86 of
`Index.tsx`.  A submission is selected iff its verdict is present and
equal to the sentinel string. -/
def suspiciousPartition (submissions : List Submission) : List Submission :=
  submissions.filter fun sub => sub.verdict == some "SKIPPED"

/-- Lines 86-101 of `Index.tsx`: classification and aggregation of the
fetched submissions into the `AnalysisResult` record. -/
def analyzeSubmissions (submissions : List Submission) : AnalysisResult :=
  let skippedSubmissions := submissions.filter fun sub => sub.verdict == some "SKIPPED"
  let totalSubmissions := submissions.length
  let skippedCount := skippedSubmissions.length
  let skippedPercentage : ℚ :=
    if totalSubmissions > 0 then ((skippedCount : ℚ) / (totalSubmissions : ℚ)) * 100 else 0
  let isCheat := decide (skippedCount > 0)
  { isCheat := isCheat
    totalSubmissions := totalSubmissions
    skippedSubmissions := skippedCount
    skippedPercentage := skippedPercentage
    suspiciousSubmissions := skippedSubmissions.take 10 }

/-- C1: a submission is classified suspicious iff its verdict field is
present and equal to the skip-sentinel string "SKIPPED"; submissions
with any other verdict or an absent verdict are non-suspicious; and the
result's suspicious flag (`isCheat` in the source) is true iff the count
of suspicious submissions is strictly greater than zero. -/
theorem skip_classification_spec (subs : List Submission) :
    (∀ sub, sub ∈ suspiciousPartition subs ↔ sub ∈ subs ∧ sub.verdict = some "SKIPPED")
    ∧ ((analyzeSubmissions subs).isCheat = true ↔ 0 < (suspiciousPartition subs).length) := by
  constructor
  · intro sub
    simp [suspiciousPartition, List.mem_filter]
  · simp [analyzeSubmissions, suspiciousPartition]

/-- C2: the result's total count is the length of the full fetched list,
its suspicious count is the length of the full suspicious partition
(independent of the 10-entry display cap), and the suspicious count
never exceeds the total count. -/
theorem submission_counts_spec (subs : List Submission) :
    (analyzeSubmissions subs).totalSubmissions = subs.length
    ∧ (analyzeSubmissions subs).skippedSubmissions = (suspiciousPartition subs).length
    ∧ (analyzeSubmissions subs).skippedSubmissions ≤ (analyzeSubmissions subs).totalSubmissions :=
  ⟨rfl, rfl, List.length_filter_le _ _⟩

/-- C3: the retained `suspiciousSubmissions` sequence is exactly the
first min(K, 10) elements of the suspicious partition: it equals
`take 10` of the partition, has length `min K 10`, is a prefix of the
partition, and the partition itself preserves the relative order of the
full remote list (it is a sublist of it). -/
theorem suspicious_take_spec (subs : List Submission) :
    (analyzeSubmissions subs).suspiciousSubmissions = (suspiciousPartition subs).take 10
    ∧ (analyzeSubmissions subs).suspiciousSubmissions.length
        = min ((suspiciousPartition subs).length) 10
    ∧ (analyzeSubmissions subs).suspiciousSubmissions ++ (suspiciousPartition subs).drop 10
        = suspiciousPartition subs
    ∧ List.Sublist (suspiciousPartition subs) subs := by
  refine ⟨rfl, ?_, ?_, List.filter_sublist subs⟩
  · show ((suspiciousPartition subs).take 10).length = min ((suspiciousPartition subs).length) 10
    rw [List.length_take, Nat.min_comm]
  · exact List.take_append_drop 10 (suspiciousPartition subs)

/-- C4: the percentage equals K / N * 100 when the total N is positive
and exactly 0 when N = 0, and in all cases lies in [0, 100].  The
JavaScript floating-point arithmetic is embedded as exact rational
arithmetic. -/
theorem skipped_percentage_spec (subs : List Submission) :
    ((analyzeSubmissions subs).skippedPercentage
        = if 0 < subs.length
          then (((suspiciousPartition subs).length : ℚ) / (subs.length : ℚ)) * 100 else 0)
    ∧ 0 ≤ (analyzeSubmissions subs).skippedPercentage
    ∧ (analyzeSubmissions subs).skippedPercentage ≤ 100 := by
  have hKN : (suspiciousPartition subs).length ≤ subs.length := List.length_filter_le _ _
  refine ⟨rfl, ?_, ?_⟩
  · show (0:ℚ) ≤ if 0 < subs.length
        then (((suspiciousPartition subs).length : ℚ) / (subs.length : ℚ)) * 100 else 0
    split
    · positivity
    · exact le_refl 0
  · show (if 0 < subs.length
        then (((suspiciousPartition subs).length : ℚ) / (subs.length : ℚ)) * 100 else 0) ≤ 100
    split
    · rename_i h
      have hN : (0:ℚ) < (subs.length : ℚ) := by exact_mod_cast h
      have hK : ((suspiciousPartition subs).length : ℚ) ≤ (subs.length : ℚ) := by
        exact_mod_cast hKN
      have hdiv : ((suspiciousPartition subs).length : ℚ) / (subs.length : ℚ) ≤ 1 :=
        (div_le_one hN).mpr hK
      calc (((suspiciousPartition subs).length : ℚ) / (subs.length : ℚ)) * 100
          ≤ 1 * 100 := by
            exact mul_le_mul_of_nonneg_right hdiv (by norm_num)
        _ = 100 := by norm_num
    · norm_num

/-- JSON envelope of the `user.info` endpoint as read by `Index.tsx`:
a `status` field, an optional `comment`, and a list of profiles. -/
structure UserInfoPayload where
  status : String
  comment : Option String
  result : List Profile
deriving DecidableEq

/-- JSON envelope of the `user.status` endpoint as read by `Index.tsx`:
a `status` field, an optional `comment`, and the submission list. -/
structure UserStatusPayload where
  status : String
  comment : Option String
  result : List Submission
deriving DecidableEq

/-- An HTTP response: the transport-level success flag (`response.ok`)
and the parsed JSON body.  `analyzeUser` in `Index.tsx` never reads the
flag; it is carried so that theorems can speak about it. -/
structure HttpResponse (α : Type) where
  ok : Bool
  body : α

/-- The remote judging platform: what each of the two endpoints would
answer for a given handle string (the string actually interpolated into
the request URL). -/
structure Remote where
  userInfo : String → HttpResponse UserInfoPayload
  userStatus : String → HttpResponse UserStatusPayload

/-- A network request issued by the engine, recording the endpoint and
the exact handle string sent. -/
inductive Request where
  | userInfo : String → Request
  | userStatus : String → Request
deriving DecidableEq

/-- The typed failures of the engine.  `invalidInput` is the early
return on an empty trimmed handle; `profileError` is the
`throw new Error(userData.comment || 'User not found')` on a non-"OK"
profile payload; `historyError` is the corresponding throw for the
history payload. -/
inductive AnalyzeError where
  | invalidInput : AnalyzeError
  | profileError : String → AnalyzeError
  | historyError : String → AnalyzeError
deriving DecidableEq

/-- Successful outcome of `analyzeUser`: the displayed user info
(`userData.result[0]`, which in JavaScript is `undefined` when the list
is empty, hence `Option`) and the analysis record. -/
structure AnalyzeSuccess where
  userInfo : Option Profile
  result : AnalysisResult
deriving DecidableEq

/-- Lines 50-103 of `Index.tsx`, function `analyzeUser`: validate the
handle, fetch the profile, fetch the history, analyze.  Returns the
outcome together with the trace of network requests issued, in order.
Note that the guard trims `username` but the request URLs interpolate
the raw `username`, exactly as in the source. -/
def analyzeUser (username : String) (remote : Remote) :
    Except AnalyzeError AnalyzeSuccess × List Request :=
  if jsTrim username = "" then
    (Except.error AnalyzeError.invalidInput, [])
  else
    let userResponse := remote.userInfo username
    let userData := userResponse.body
    if userData.status ≠ "OK" then
      (Except.error (AnalyzeError.profileError (strOrDefault userData.comment "User not found")),
       [Request.userInfo username])
    else
      let userInfoShown := userData.result.head?
      let submissionsResponse := remote.userStatus username
      let submissionsData := submissionsResponse.body
      if submissionsData.status ≠ "OK" then
        (Except.error
          (AnalyzeError.historyError (strOrDefault submissionsData.comment "Failed to fetch submissions")),
         [Request.userInfo username, Request.userStatus username])
      else
        (Except.ok
          { userInfo := userInfoShown
            result := analyzeSubmissions submissionsData.result },
         [Request.userInfo username, Request.userStatus username])

/-- A benign remote used to instantiate universally quantified theorems:
both endpoints answer "OK" for every handle. -/
def demoProfile : Profile :=
  { handle := "alice", rating := some 1500, maxRating := some 1600 }

/-- A remote whose two endpoints succeed with "OK" payloads. -/
def demoRemote : Remote :=
  { userInfo := fun _ =>
      { ok := true, body := { status := "OK", comment := none, result := [demoProfile] } }
    userStatus := fun _ =>
      { ok := true, body := { status := "OK", comment := none, result := [] } } }

/-- C5: a raw handle that is empty after trimming fails with
`InvalidInput` and the engine issues zero network requests. -/
theorem invalid_input_spec (username : String) (remote : Remote)
    (h : jsTrim username = "") :
    analyzeUser username remote = (Except.error AnalyzeError.invalidInput, []) := by
  simp [analyzeUser, h]

/-- C5 witness: the whitespace-only handle "  " fails with
`InvalidInput` and no request is issued. -/
theorem invalid_input_witness :
    analyzeUser "  " demoRemote = (Except.error AnalyzeError.invalidInput, []) :=
  invalid_input_spec "  " demoRemote (by decide)

/-- A remote whose profile endpoint answers status "FAILED" with a
present-but-empty comment string. -/
def emptyCommentRemote : Remote :=
  { userInfo := fun _ =>
      { ok := true, body := { status := "FAILED", comment := some "", result := [] } }
    userStatus := fun _ =>
      { ok := true, body := { status := "OK", comment := none, result := [] } } }

/-- C6 counterexample: the profile payload has status "FAILED" and a
present comment equal to the empty string, yet the engine reports the
generic message "User not found" instead of carrying that exact comment,
because the JavaScript expression `userData.comment || 'User not found'`
treats the empty string as absent. -/
theorem profile_empty_comment_cex :
    (emptyCommentRemote.userInfo "alice").body.status ≠ "OK"
    ∧ (emptyCommentRemote.userInfo "alice").body.comment = some ""
    ∧ (analyzeUser "alice" emptyCommentRemote).1
        = Except.error (AnalyzeError.profileError "User not found")
    ∧ "User not found" ≠ "" := by
  refine ⟨by decide, rfl, ?_, by decide⟩
  rfl

/-- C6 (amended): on a profile payload whose status is not "OK" the
engine fails with the profile error carrying the remote comment when it
is present and non-empty, and the generic message "User not found" when
the comment is absent or empty; the failure is not reclassified and no
history request is issued. -/
theorem profile_failure_spec (username : String) (remote : Remote)
    (h1 : jsTrim username ≠ "")
    (h2 : (remote.userInfo username).body.status ≠ "OK") :
    (analyzeUser username remote).1
      = Except.error (AnalyzeError.profileError
          (strOrDefault (remote.userInfo username).body.comment "User not found"))
    ∧ (analyzeUser username remote).2 = [Request.userInfo username]
    ∧ (∀ c, (remote.userInfo username).body.comment = some c → c ≠ "" →
        strOrDefault (remote.userInfo username).body.comment "User not found" = c)
    ∧ ((remote.userInfo username).body.comment = none
        ∨ (remote.userInfo username).body.comment = some "" →
        strOrDefault (remote.userInfo username).body.comment "User not found"
          = "User not found") := by
  refine ⟨?_, ?_, ?_, ?_⟩
  · simp [analyzeUser, h1, h2]
  · simp [analyzeUser, h1, h2]
  · intro c hc hne
    rw [hc]
    simp [strOrDefault, hne]
  · intro hcase
    rcases hcase with hc | hc <;> rw [hc] <;> simp [strOrDefault]

/-- A remote whose profile endpoint answers status "FAILED" with the
comment "handle not found". -/
def failedProfileRemote : Remote :=
  { userInfo := fun _ =>
      { ok := true
        body := { status := "FAILED", comment := some "handle not found", result := [] } }
    userStatus := fun _ =>
      { ok := true, body := { status := "OK", comment := none, result := [] } } }

/-- C6 witness: a profile payload with status "FAILED" and comment
"handle not found" yields the profile error carrying that exact comment,
with only the profile request issued. -/
theorem profile_failure_witness :
    (analyzeUser "alice" failedProfileRemote).1
      = Except.error (AnalyzeError.profileError "handle not found")
    ∧ (analyzeUser "alice" failedProfileRemote).2 = [Request.userInfo "alice"] :=
  ⟨(profile_failure_spec "alice" failedProfileRemote (by decide) (by decide)).1,
   (profile_failure_spec "alice" failedProfileRemote (by decide) (by decide)).2.1⟩

/-- C7 counterexample: for the raw handle " alice " (which trims to
"alice"), both issued requests carry the raw, untrimmed string — the
trimmed handle is not the value used in the requests. -/
theorem raw_handle_cex :
    (analyzeUser " alice " demoRemote).2
      = [Request.userInfo " alice ", Request.userStatus " alice "]
    ∧ jsTrim " alice " ≠ " alice " := by
  exact ⟨rfl, by decide⟩

/-- C7 (amended): the trimmed handle is used only for the emptiness
check; every request the engine issues carries the raw `username`
string verbatim, and both requests carry the same value. -/
theorem requests_use_raw_handle (username : String) (remote : Remote)
    (h : jsTrim username ≠ "") :
    (analyzeUser username remote).2 = [Request.userInfo username]
    ∨ (analyzeUser username remote).2
        = [Request.userInfo username, Request.userStatus username] := by
  by_cases hp : (remote.userInfo username).body.status = "OK"
  · by_cases hh : (remote.userStatus username).body.status = "OK"
    · right; simp [analyzeUser, h, hp, hh]
    · right; simp [analyzeUser, h, hp, hh]
  · left; simp [analyzeUser, h, hp]

/-- C7 witness: the raw handle " alice " leads to both requests being
issued with that raw string. -/
theorem requests_use_raw_handle_witness :
    (analyzeUser " alice " demoRemote).2 = [Request.userInfo " alice "]
    ∨ (analyzeUser " alice " demoRemote).2
        = [Request.userInfo " alice ", Request.userStatus " alice "] :=
  requests_use_raw_handle " alice " demoRemote (by decide)

/-- A remote whose two endpoints report a transport-level failure
(`ok = false`) while still delivering payloads with status "OK". -/
def badHttpRemote : Remote :=
  { userInfo := fun _ =>
      { ok := false, body := { status := "OK", comment := none, result := [demoProfile] } }
    userStatus := fun _ =>
      { ok := false, body := { status := "OK", comment := none, result := [] } } }

/-- C8 counterexample: both endpoints return a non-success HTTP status
(ok = false) with payloads whose embedded status is "OK"; the engine
succeeds instead of failing, because `analyzeUser` never examines the
HTTP-level status of either response. -/
theorem http_ok_ignored_cex :
    (badHttpRemote.userInfo "alice").ok = false
    ∧ (badHttpRemote.userStatus "alice").ok = false
    ∧ (analyzeUser "alice" badHttpRemote).1
        = Except.ok { userInfo := some demoProfile, result := analyzeSubmissions [] } := by
  exact ⟨rfl, rfl, rfl⟩

/-- Rebuild a remote with different transport-level success flags for
each endpoint but identical payloads. -/
def withOk (remote : Remote) (f g : String → Bool) : Remote :=
  { userInfo := fun u => { ok := f u, body := (remote.userInfo u).body }
    userStatus := fun u => { ok := g u, body := (remote.userStatus u).body } }

/-- C8 (amended): the engine never examines the HTTP-level success flag
— its outcome is invariant under arbitrary changes of the flags — and
failure is decided solely by the payloads: a profile error occurs iff
the profile payload status is not "OK", and a history error occurs iff
the profile payload status is "OK" and the history payload status is
not. -/
theorem payload_status_decides_failure (username : String) (remote : Remote)
    (f g : String → Bool) (h : jsTrim username ≠ "") :
    analyzeUser username (withOk remote f g) = analyzeUser username remote
    ∧ ((∃ msg, (analyzeUser username remote).1
          = Except.error (AnalyzeError.profileError msg))
        ↔ (remote.userInfo username).body.status ≠ "OK")
    ∧ ((∃ msg, (analyzeUser username remote).1
          = Except.error (AnalyzeError.historyError msg))
        ↔ ((remote.userInfo username).body.status = "OK"
            ∧ (remote.userStatus username).body.status ≠ "OK")) := by
  refine ⟨?_, ?_, ?_⟩
  · simp [analyzeUser, withOk]
  · by_cases hp : (remote.userInfo username).body.status = "OK" <;>
      by_cases hh : (remote.userStatus username).body.status = "OK" <;>
      simp [analyzeUser, h, hp, hh]
  · by_cases hp : (remote.userInfo username).body.status = "OK" <;>
      by_cases hh : (remote.userStatus username).body.status = "OK" <;>
      simp [analyzeUser, h, hp, hh]

/-- C8 witness: with the flags forced to false and a "FAILED" profile
payload, the outcome is unchanged and a profile error is reported. -/
theorem payload_status_decides_failure_witness :
    analyzeUser "alice" (withOk failedProfileRemote (fun _ => false) (fun _ => false))
      = analyzeUser "alice" failedProfileRemote
    ∧ ((∃ msg, (analyzeUser "alice" failedProfileRemote).1
          = Except.error (AnalyzeError.profileError msg))
        ↔ (failedProfileRemote.userInfo "alice").body.status ≠ "OK") :=
  ⟨(payload_status_decides_failure "alice" failedProfileRemote
      (fun _ => false) (fun _ => false) (by decide)).1,
   (payload_status_decides_failure "alice" failedProfileRemote
      (fun _ => false) (fun _ => false) (by decide)).2.1⟩

/-- A test submission with the given id and verdict; the remaining
fields are fixed plausible values. -/
def mkSubmission (n : Int) (v : Option String) : Submission :=
  { id := n, contestId := some 1, creationTimeSeconds := n, relativeTimeSeconds := 0
    problem := { contestId := some 1, index := "A", name := "P", type := "PROGRAMMING",
                 rating := some 800 }
    author := { contestId := some 1, members := [{ handle := "alice" }],
                participantType := "CONTESTANT", ghost := false, room := none,
                startTimeSeconds := none }
    programmingLanguage := "GNU C++17", verdict := v, testset := "TESTS"
    passedTestCount := 0, timeConsumedMillis := 0, memoryConsumedBytes := 0 }

/-- The constructible reading of the spec's worked example: 12
submissions, with the skip-sentinel verdict at 1-based positions 2, 5,
9, 10, 11 and 12 (the listed position 13 does not exist in a 12-element
list). -/
def exampleTwelve : List Submission :=
  [mkSubmission 1 (some "OK"), mkSubmission 2 (some "SKIPPED"), mkSubmission 3 (some "OK"),
   mkSubmission 4 (some "OK"), mkSubmission 5 (some "SKIPPED"), mkSubmission 6 (some "OK"),
   mkSubmission 7 (some "OK"), mkSubmission 8 (some "OK"), mkSubmission 9 (some "SKIPPED"),
   mkSubmission 10 (some "SKIPPED"), mkSubmission 11 (some "SKIPPED"),
   mkSubmission 12 (some "SKIPPED")]

/-- The percentage computed on the worked-example list is exactly 50. -/
theorem exampleTwelve_percentage :
    (analyzeSubmissions exampleTwelve).skippedPercentage = 50 := by
  have hK : ((exampleTwelve.filter fun sub => sub.verdict == some "SKIPPED").length) = 6 := by
    decide
  have hN : exampleTwelve.length = 12 := by decide
  simp only [analyzeSubmissions, hK, hN]
  norm_num

/-- C9 counterexample: the worked example's listed positions, read
against a 12-element list, mark 6 submissions suspicious, not 8; the
engine computes a count of 6 and a percentage of exactly 50, not 66.7. -/
theorem worked_example_cex :
    exampleTwelve.length = 12
    ∧ (analyzeSubmissions exampleTwelve).skippedSubmissions = 6
    ∧ (analyzeSubmissions exampleTwelve).skippedSubmissions ≠ 8
    ∧ (analyzeSubmissions exampleTwelve).skippedPercentage = 50
    ∧ (50 : ℚ) ≠ 667 / 10 := by
  exact ⟨by decide, by decide, by decide, exampleTwelve_percentage, by norm_num⟩

/-- C9 (amended): on the constructible worked example (12 submissions,
skip verdicts at positions 2, 5, 9, 10, 11, 12) the engine reports 6
suspicious submissions, the flag set, percentage exactly 50 (one-decimal
rounding 50.0), and retains exactly those 6 submissions in original
order with no truncation. -/
theorem worked_example_amended :
    (analyzeSubmissions exampleTwelve).skippedSubmissions = 6
    ∧ (analyzeSubmissions exampleTwelve).isCheat = true
    ∧ (analyzeSubmissions exampleTwelve).skippedPercentage = 50
    ∧ (analyzeSubmissions exampleTwelve).suspiciousSubmissions
        = [mkSubmission 2 (some "SKIPPED"), mkSubmission 5 (some "SKIPPED"),
           mkSubmission 9 (some "SKIPPED"), mkSubmission 10 (some "SKIPPED"),
           mkSubmission 11 (some "SKIPPED"), mkSubmission 12 (some "SKIPPED")]
    ∧ (analyzeSubmissions exampleTwelve).suspiciousSubmissions.length = 6 := by
  exact ⟨by decide, by decide, exampleTwelve_percentage, by decide, by decide⟩

/-- C10: when the profile payload status is "OK" the engine reads the
first element of the payload's result list without checking that the
list is non-empty: the access (embedded as the `Option`-returning
`head?`) is defined iff the list is non-empty, the engine still issues
the history request, and on overall success the displayed user info is
exactly `head?` of the result list — for the empty list the engine
proceeds with an absent profile rather than failing. -/
theorem profile_head_unchecked (username : String) (remote : Remote)
    (h1 : jsTrim username ≠ "")
    (h2 : (remote.userInfo username).body.status = "OK") :
    Request.userStatus username ∈ (analyzeUser username remote).2
    ∧ (∀ s, (analyzeUser username remote).1 = Except.ok s →
        s.userInfo = (remote.userInfo username).body.result.head?)
    ∧ (((remote.userInfo username).body.result.head?).isSome
        ↔ (remote.userInfo username).body.result ≠ [])
    ∧ ((remote.userStatus username).body.status = "OK" →
        (analyzeUser username remote).1
          = Except.ok
              { userInfo := (remote.userInfo username).body.result.head?
                result := analyzeSubmissions (remote.userStatus username).body.result }) := by
  have hmain : ∀ _ : (remote.userStatus username).body.status = "OK",
      (analyzeUser username remote).1
        = Except.ok
            { userInfo := (remote.userInfo username).body.result.head?
              result := analyzeSubmissions (remote.userStatus username).body.result } := by
    intro hh
    simp [analyzeUser, h1, h2, hh]
  have herr : ∀ _ : (remote.userStatus username).body.status ≠ "OK",
      (analyzeUser username remote).1
        = Except.error (AnalyzeError.historyError
            (strOrDefault (remote.userStatus username).body.comment
              "Failed to fetch submissions")) := by
    intro hh
    simp [analyzeUser, h1, h2, hh]
  refine ⟨?_, ?_, ?_, hmain⟩
  · by_cases hh : (remote.userStatus username).body.status = "OK" <;>
      simp [analyzeUser, h1, h2, hh]
  · intro s hs
    by_cases hh : (remote.userStatus username).body.status = "OK"
    · rw [hmain hh] at hs
      rw [← Except.ok.inj hs]
    · rw [herr hh] at hs
      simp at hs
  · cases hl : (remote.userInfo username).body.result <;> simp

/-- A remote whose profile endpoint answers "OK" with an empty result
list, and whose history endpoint answers "OK". -/
def emptyResultRemote : Remote :=
  { userInfo := fun _ =>
      { ok := true, body := { status := "OK", comment := none, result := [] } }
    userStatus := fun _ =>
      { ok := true, body := { status := "OK", comment := none, result := [] } } }

/-- C10 witness: with an "OK" profile payload whose result list is
empty, the history request is still issued and any success carries an
absent (none) user info. -/
theorem profile_head_unchecked_witness :
    Request.userStatus "alice" ∈ (analyzeUser "alice" emptyResultRemote).2
    ∧ (∀ s, (analyzeUser "alice" emptyResultRemote).1 = Except.ok s →
        s.userInfo = (emptyResultRemote.userInfo "alice").body.result.head?)
    ∧ (((emptyResultRemote.userInfo "alice").body.result.head?).isSome
        ↔ (emptyResultRemote.userInfo "alice").body.result ≠ [])
    ∧ ((emptyResultRemote.userStatus "alice").body.status = "OK" →
        (analyzeUser "alice" emptyResultRemote).1
          = Except.ok
              { userInfo := (emptyResultRemote.userInfo "alice").body.result.head?
                result := analyzeSubmissions (emptyResultRemote.userStatus "alice").body.result }) :=
  profile_head_unchecked "alice" emptyResultRemote (by decide) rfl
